import Mathlib

/-!
Verification of the Friendbook application (src/app.py) against its
natural-language specification.

The application is a Flask + SQLAlchemy CRUD app backed by SQLite.  We embed
it shallowly: the four tables become lists of records kept in insertion
order (SQLite returns rows in rowid = insertion order when no ORDER BY is
given), every handler becomes a pure function from (store, session, request
data) to (store, session, response), and server-assigned timestamps become an
explicit `now` argument.  Two pieces of library semantics that the handlers
rely on are modelled explicitly where they are used:

* werkzeug's password hashing: check_password_hash succeeds exactly when the
  presented password is the one that was hashed (hashes are modelled as an
  injective tagging function);
* SQLAlchemy's delete behaviour for a one-to-many relationship that carries
  no delete cascade: on session.delete(parent) the ORM nulls the children's
  foreign key, which violates a NOT NULL constraint on that column, so the
  flush raises IntegrityError and the transaction commits nothing.  SQLite
  does not enforce FOREIGN KEY constraints by default, so inserting a row
  whose foreign key matches no parent succeeds.
-/

/-- A row of the user table (app.py lines 12-17): integer primary key,
unique username, stored password hash. -/
structure User where
  id : Nat
  username : String
  password : String
deriving Repr, DecidableEq

/-- A row of the post table (app.py lines 19-24): content, server timestamp,
author id (NOT NULL foreign key into user). -/
structure Post where
  id : Nat
  content : String
  timestamp : Nat
  user_id : Nat
deriving Repr, DecidableEq

/-- A row of the comment table (app.py lines 26-31): content, server
timestamp, author id and parent post id (both NOT NULL foreign keys). -/
structure Comment where
  id : Nat
  content : String
  timestamp : Nat
  user_id : Nat
  post_id : Nat
deriving Repr, DecidableEq

/-- A row of the message table (app.py lines 33-37): content, denormalized
author username (a plain string, not a foreign key), server timestamp. -/
structure Message where
  id : Nat
  content : String
  user : String
  timestamp : Nat
deriving Repr, DecidableEq

/-- The relational store: the four tables, each kept in insertion order. -/
structure Store where
  users : List User
  posts : List Post
  comments : List Comment
  messages : List Message
deriving Repr, DecidableEq

/-- The Flask session: user_id and username are both set at login and both
cleared at logout, but each is read independently with session.get. -/
structure Session where
  userId : Option Nat
  username : Option String
deriving Repr, DecidableEq

/-- What a handler hands back to the client.  Pages carry exactly the data
the template renders from, so claims about rendered order are statable. -/
inductive Response where
  | redirect (loc : String)
  | redirectFlash (loc : String) (msg : String)
  | unauthorizedText
  | notFound
  | loginPageFlash (msg : String)
  | chatPage (messages : List Message)
  | serverError
deriving Repr, DecidableEq

/-- Result of one request: the committed store, the session as the response
leaves it, and the HTTP response. -/
structure HResult where
  store : Store
  session : Session
  response : Response
deriving Repr, DecidableEq

/-- Next autogenerated integer primary key: SQLite assigns max rowid + 1. -/
def nextId (ids : List Nat) : Nat := ids.foldr max 0 + 1

/-- Modelled from the werkzeug contract used at app.py line 119:
generate_password_hash produces an irreversible hash of the password;
distinct passwords hash to values that do not verify against each other. -/
def generate_password_hash (p : String) : String := "pbkdf2:" ++ p

/-- Modelled from the werkzeug contract used at app.py line 143:
check_password_hash stored given succeeds exactly when given is the
password whose hash was stored. -/
def check_password_hash (stored given : String) : Bool :=
  stored == generate_password_hash given

/-- SQLAlchemy query User.query.filter_by(username=...).first()
(app.py lines 120 and 142). -/
def findUserByName (s : Store) (u : String) : Option User :=
  s.users.find? (fun x => x.username == u)

/-- SQLAlchemy query Post.query.get(id); get_or_404 returns 404 on none
(app.py lines 175 and 184). -/
def findPostById (s : Store) (id : Nat) : Option Post :=
  s.posts.find? (fun p => p.id == id)

/-- SQLAlchemy query Comment.query.get(id) (app.py lines 202 and 211). -/
def findCommentById (s : Store) (id : Nat) : Option Comment :=
  s.comments.find? (fun c => c.id == id)

/-- Message.query.order_by(Message.timestamp.asc()).all() (app.py line 224). -/
def listMessages (s : Store) : List Message :=
  s.messages.mergeSort (fun a b => decide (a.timestamp ≤ b.timestamp))

/-- POST /register handler body (app.py lines 117-127): hash the password,
refuse a username that already exists, otherwise insert the new User. -/
def register (s : Store) (sess : Session) (username pw : String) : HResult :=
  let hashed := generate_password_hash pw
  match findUserByName s username with
  | some _ => ⟨s, sess, .redirectFlash "/register" "Username already exists."⟩
  | none =>
      let user : User :=
        { id := nextId (s.users.map User.id), username := username, password := hashed }
      ⟨{ s with users := s.users ++ [user] }, sess,
        .redirectFlash "/login" "Registered! Please log in."⟩

/-- POST /login handler body (app.py lines 141-147): look the username up;
on hash match store id and username in the session and redirect home,
otherwise flash Invalid login and re-render the form. -/
def login (s : Store) (sess : Session) (username pw : String) : HResult :=
  match findUserByName s username with
  | some user =>
      if check_password_hash user.password pw then
        ⟨s, { userId := some user.id, username := some user.username }, .redirect "/"⟩
      else
        ⟨s, sess, .loginPageFlash "Invalid login."⟩
  | none => ⟨s, sess, .loginPageFlash "Invalid login."⟩

/-- GET /logout (app.py lines 159-162): session.clear() then redirect. -/
def logout (s : Store) (_sess : Session) : HResult :=
  ⟨s, { userId := none, username := none }, .redirect "/"⟩

/-- POST /post (app.py lines 164-171): redirect anonymous callers to /login;
otherwise insert a Post with the form content, the session's user id and a
server timestamp, with no content validation. -/
def post (s : Store) (sess : Session) (content : String) (now : Nat) : HResult :=
  match sess.userId with
  | none => ⟨s, sess, .redirect "/login"⟩
  | some uid =>
      let new_post : Post :=
        { id := nextId (s.posts.map Post.id), content := content,
          timestamp := now, user_id := uid }
      ⟨{ s with posts := s.posts ++ [new_post] }, sess, .redirect "/"⟩

/-- POST /edit_post/id (app.py lines 173-180): 404 when the id is absent;
plain Unauthorized text when the post's owner differs from the session's
user id (session.get of an absent key gives none); else update content. -/
def edit_post (s : Store) (sess : Session) (id : Nat) (content : String) : HResult :=
  match findPostById s id with
  | none => ⟨s, sess, .notFound⟩
  | some p =>
      if some p.user_id ≠ sess.userId then ⟨s, sess, .unauthorizedText⟩
      else
        let upd := fun (q : Post) => if q.id == id then { q with content := content } else q
        ⟨{ s with posts := s.posts.map upd }, sess, .redirect "/"⟩

/-- GET /delete_post/id (app.py lines 182-189): 404 when absent, Unauthorized
for a non-owner; otherwise db.session.delete(post).  The Post.comments
relationship (line 24) carries no delete cascade, so SQLAlchemy nulls
post_id on every child comment, and Comment.post_id is NOT NULL (line 31):
when the post has any comment the flush raises IntegrityError, nothing is
committed and the request fails; a comment-free post is simply deleted. -/
def delete_post (s : Store) (sess : Session) (id : Nat) : HResult :=
  match findPostById s id with
  | none => ⟨s, sess, .notFound⟩
  | some p =>
      if some p.user_id ≠ sess.userId then ⟨s, sess, .unauthorizedText⟩
      else if s.comments.any (fun c => c.post_id == p.id) then
        ⟨s, sess, .serverError⟩
      else
        ⟨{ s with posts := s.posts.filter (fun q => q.id != id) }, sess, .redirect "/"⟩

/-- POST /comment/post_id (app.py lines 191-198): redirect anonymous callers
to /login; otherwise insert a Comment carrying the given post_id.  No
existence check is made and SQLite does not enforce the foreign key, so the
insert succeeds even when no such post exists. -/
def comment (s : Store) (sess : Session) (post_id : Nat) (content : String)
    (now : Nat) : HResult :=
  match sess.userId with
  | none => ⟨s, sess, .redirect "/login"⟩
  | some uid =>
      let new_comment : Comment :=
        { id := nextId (s.comments.map Comment.id), content := content,
          timestamp := now, user_id := uid, post_id := post_id }
      ⟨{ s with comments := s.comments ++ [new_comment] }, sess, .redirect "/"⟩

/-- POST /edit_comment/id (app.py lines 200-207): same ownership-gated
pattern as edit_post, scoped to the comment's owner. -/
def edit_comment (s : Store) (sess : Session) (id : Nat) (content : String) : HResult :=
  match findCommentById s id with
  | none => ⟨s, sess, .notFound⟩
  | some c =>
      if some c.user_id ≠ sess.userId then ⟨s, sess, .unauthorizedText⟩
      else
        let upd := fun (q : Comment) => if q.id == id then { q with content := content } else q
        ⟨{ s with comments := s.comments.map upd }, sess, .redirect "/"⟩

/-- GET /delete_comment/id (app.py lines 209-216): 404 when absent,
Unauthorized for a non-owner, else delete the comment. -/
def delete_comment (s : Store) (sess : Session) (id : Nat) : HResult :=
  match findCommentById s id with
  | none => ⟨s, sess, .notFound⟩
  | some c =>
      if some c.user_id ≠ sess.userId then ⟨s, sess, .unauthorizedText⟩
      else
        ⟨{ s with comments := s.comments.filter (fun q => q.id != id) }, sess,
          .redirect "/"⟩

/-- GET or POST /chat (app.py lines 218-240): on a POST with user_id in the
session, append a Message under the session's username (reading
session["username"], a KeyError — server error — were it absent); in every
case render the message list ordered by ascending timestamp. -/
def chat (s : Store) (sess : Session) (methodIsPost : Bool) (message : String)
    (now : Nat) : HResult :=
  if methodIsPost && sess.userId.isSome then
    match sess.username with
    | none => ⟨s, sess, .serverError⟩
    | some uname =>
        let msg : Message :=
          { id := nextId (s.messages.map Message.id), content := message,
            user := uname, timestamp := now }
        let s1 := { s with messages := s.messages ++ [msg] }
        ⟨s1, sess, .chatPage (listMessages s1)⟩
  else
    ⟨s, sess, .chatPage (listMessages s)⟩

/-- GET /clearchat (app.py lines 242-246): Message.query.delete() with no
authentication or ownership check of any kind, then redirect to /chat. -/
def clearchat (s : Store) (sess : Session) : HResult :=
  ⟨{ s with messages := [] }, sess, .redirect "/chat"⟩

/-- One post as the home template renders it (app.py lines 80-111): the post,
whether the session owns it (line 85 compares session.get user_id with the
post's user_id), and its comments — the post.comments relationship, i.e. the
comment rows with this post_id in insertion order — each paired with the
session's ownership of it (line 100). -/
structure PostView where
  post : Post
  owned : Bool
  comments : List (Comment × Bool)
deriving Repr, DecidableEq

/-- Body of the template's post loop (app.py lines 80-111) for one post. -/
def postView (s : Store) (sess : Session) (p : Post) : PostView :=
  { post := p,
    owned := sess.userId == some p.user_id,
    comments := (s.comments.filter (fun c => c.post_id == p.id)).map
      (fun c => (c, sess.userId == some c.user_id)) }

/-- GET / (app.py lines 62-113): posts ordered by descending timestamp
(line 64), each rendered with its ownership flag and its comments. -/
def index (s : Store) (sess : Session) : List PostView :=
  (s.posts.mergeSort (fun a b => decide (b.timestamp ≤ a.timestamp))).map (postView s sess)

/-! Theorems settling the claims. -/

/-- Hash injectivity: distinct passwords produce hashes that do not verify
against each other (the tag-and-append model makes the hash injective). -/
theorem generate_password_hash_injective {p q : String}
    (h : generate_password_hash p = generate_password_hash q) : p = q := by
  have hd := congrArg String.data h
  rw [generate_password_hash, generate_password_hash,
    String.data_append, String.data_append] at hd
  exact String.ext (List.append_cancel_left hd)

/-- Store for C1: alice owns post 1, which has one comment. -/
def c1Store : Store :=
  { users := [{ id := 1, username := "alice", password := generate_password_hash "pw1" }],
    posts := [{ id := 1, content := "hello", timestamp := 1, user_id := 1 }],
    comments := [{ id := 1, content := "hi", timestamp := 2, user_id := 1, post_id := 1 }],
    messages := [] }

/-- C1: counter-evidence for the cascade claim.  When alice, the owner,
requests deletion of her post 1 which has a comment, the request fails with
IntegrityError (the relationship has no delete cascade, so SQLAlchemy tries
to null the NOT NULL post_id of the child comment) and the committed store
is completely unchanged: the post is not removed and neither is its comment,
where the claim requires both removed. -/
theorem c1_deletePost_with_comment_fails_not_cascades :
    delete_post c1Store { userId := some 1, username := some "alice" } 1 =
      { store := c1Store,
        session := { userId := some 1, username := some "alice" },
        response := .serverError } := by
  rfl

/-- Store for C2: bob exists; there are no posts at all. -/
def c2Store : Store :=
  { users := [{ id := 2, username := "bob", password := generate_password_hash "pw2" }],
    posts := [], comments := [], messages := [] }

/-- C2: counter-evidence for the NotFound claim.  With an authenticated
session, a comment posted to the non-existent post id 999 is not refused:
the handler makes no existence check and SQLite does not enforce the foreign
key, so a dangling Comment row with post_id 999 is inserted and the request
redirects home, where the claim requires NotFound and an unchanged store. -/
theorem c2_comment_on_missing_post_is_inserted :
    findPostById c2Store 999 = none ∧
    comment c2Store { userId := some 2, username := some "bob" } 999 "hi" 5 =
      { store := { c2Store with
          comments := [{ id := 1, content := "hi", timestamp := 5, user_id := 2, post_id := 999 }] },
        session := { userId := some 2, username := some "bob" },
        response := .redirect "/" } := by
  exact ⟨rfl, rfl⟩

/-- Store for C5: carol exists; there are no posts yet. -/
def c5Store : Store :=
  { users := [{ id := 3, username := "carol", password := generate_password_hash "pw3" }],
    posts := [], comments := [], messages := [] }

/-- C5: counter-evidence for the empty-content validation claim.  An
authenticated POST /post with empty content is not refused: the handler has
no server-side validation (only the HTML form's client-side required
attribute), so a Post with empty content is inserted and the request
redirects home, where the claim requires ValidationError and no insert. -/
theorem c5_empty_content_post_is_inserted :
    post c5Store { userId := some 3, username := some "carol" } "" 7 =
      { store := { c5Store with
          posts := [{ id := 1, content := "", timestamp := 7, user_id := 3 }] },
        session := { userId := some 3, username := some "carol" },
        response := .redirect "/" } := by
  rfl

/-- C7: clearchat deletes every Message for any session whatsoever, a
subsequent listMessages gives the empty sequence, and the users, posts and
comments tables are untouched. -/
theorem c7_clearchat_deletes_all_messages_only (s : Store) (sess : Session) :
    (clearchat s sess).store.messages = [] ∧
    listMessages (clearchat s sess).store = [] ∧
    (clearchat s sess).store.users = s.users ∧
    (clearchat s sess).store.posts = s.posts ∧
    (clearchat s sess).store.comments = s.comments ∧
    (clearchat s sess).session = sess ∧
    (clearchat s sess).response = .redirect "/chat" := by
  refine ⟨rfl, ?_, rfl, rfl, rfl, rfl, rfl⟩
  simp [clearchat, listMessages]

/-- C3: for an existing post and a session identity different from the
post's owner, both edit_post and delete_post answer with the plain
Unauthorized text, commit nothing (store and session unchanged), and the
post afterwards still exists with content, timestamp and owner intact. -/
theorem c3_non_owner_edit_delete_unauthorized (s : Store) (sess : Session) (p : Post)
    (content : String)
    (hp : findPostById s p.id = some p)
    (hne : sess.userId ≠ some p.user_id) :
    edit_post s sess p.id content = ⟨s, sess, .unauthorizedText⟩ ∧
    delete_post s sess p.id = ⟨s, sess, .unauthorizedText⟩ ∧
    findPostById (edit_post s sess p.id content).store p.id = some p ∧
    findPostById (delete_post s sess p.id).store p.id = some p := by
  have hne' : some p.user_id ≠ sess.userId := fun h => hne h.symm
  have h1 : edit_post s sess p.id content = ⟨s, sess, .unauthorizedText⟩ := by
    unfold edit_post
    rw [hp]
    simp [hne']
  have h2 : delete_post s sess p.id = ⟨s, sess, .unauthorizedText⟩ := by
    unfold delete_post
    rw [hp]
    simp [hne']
  exact ⟨h1, h2, by rw [h1]; exact hp, by rw [h2]; exact hp⟩

/-- Store for the C3 witness: alice (id 1) owns post 1; bob is user 2. -/
def c3Store : Store :=
  { users := [{ id := 1, username := "alice", password := generate_password_hash "pw1" },
              { id := 2, username := "bob", password := generate_password_hash "pw2" }],
    posts := [{ id := 1, content := "hello", timestamp := 1, user_id := 1 }],
    comments := [], messages := [] }

/-- Witness for C3: bob's session attempting to edit alice's post 1 is
answered Unauthorized with the store unchanged. -/
theorem c3_non_owner_edit_delete_unauthorized_witness :
    findPostById c3Store 1 = some { id := 1, content := "hello", timestamp := 1, user_id := 1 } ∧
    (some 2 : Option Nat) ≠ some 1 ∧
    edit_post c3Store { userId := some 2, username := some "bob" } 1 "hacked" =
      ⟨c3Store, { userId := some 2, username := some "bob" }, .unauthorizedText⟩ :=
  ⟨rfl, by decide,
    (c3_non_owner_edit_delete_unauthorized c3Store
      { userId := some 2, username := some "bob" }
      { id := 1, content := "hello", timestamp := 1, user_id := 1 }
      "hacked" rfl (by decide)).1⟩

/-- C4: when a username is free, registering it inserts exactly one User
carrying its hash, and a second registration of the same username is refused
with the duplicate flash and commits nothing: the whole store, the first
user's record included, is exactly as the first registration left it. -/
theorem c4_second_register_same_username_rejected (s : Store) (sess : Session)
    (u p1 p2 : String)
    (h : findUserByName s u = none) :
    (register s sess u p1).store.users = s.users ++
      [{ id := nextId (s.users.map User.id), username := u,
         password := generate_password_hash p1 }] ∧
    (register s sess u p1).response = .redirectFlash "/login" "Registered! Please log in." ∧
    register (register s sess u p1).store sess u p2 =
      ⟨(register s sess u p1).store, sess,
        .redirectFlash "/register" "Username already exists."⟩ := by
  have h1 : register s sess u p1 =
      ⟨{ s with users := s.users ++
          [{ id := nextId (s.users.map User.id), username := u,
             password := generate_password_hash p1 }] }, sess,
        .redirectFlash "/login" "Registered! Please log in."⟩ := by
    unfold register
    rw [h]
  have h2 : findUserByName
      { s with users := s.users ++
          [{ id := nextId (s.users.map User.id), username := u,
             password := generate_password_hash p1 }] } u =
      some { id := nextId (s.users.map User.id), username := u,
             password := generate_password_hash p1 } := by
    unfold findUserByName at h ⊢
    simp [List.find?_append, h]
  have h3 : register
      { s with users := s.users ++
          [{ id := nextId (s.users.map User.id), username := u,
             password := generate_password_hash p1 }] } sess u p2 =
      ⟨{ s with users := s.users ++
          [{ id := nextId (s.users.map User.id), username := u,
             password := generate_password_hash p1 }] }, sess,
        .redirectFlash "/register" "Username already exists."⟩ := by
    unfold register
    rw [h2]
  rw [h1]
  exact ⟨rfl, rfl, h3⟩

/-- Witness for C4: registering alice twice in an empty store; the second
attempt is rejected and the store keeps exactly the first record. -/
theorem c4_second_register_same_username_rejected_witness :
    findUserByName { users := [], posts := [], comments := [], messages := [] } "alice" = none ∧
    (register { users := [], posts := [], comments := [], messages := [] }
        { userId := none, username := none } "alice" "pw1").store.users =
      [{ id := 1, username := "alice", password := generate_password_hash "pw1" }] :=
  ⟨rfl,
    (c4_second_register_same_username_rejected
      { users := [], posts := [], comments := [], messages := [] }
      { userId := none, username := none } "alice" "pw1" "pw2" rfl).1⟩

/-- C9: a POST to /chat from a session with no user id inserts nothing — the
store it commits is the one it was given — and it renders the existing
message list rather than redirecting; POST /post from the same session, by
contrast, redirects to /login. -/
theorem c9_anon_chat_post_renders_without_insert (s : Store) (sess : Session)
    (msg content : String) (now : Nat)
    (hanon : sess.userId = none) :
    chat s sess true msg now = ⟨s, sess, .chatPage (listMessages s)⟩ ∧
    post s sess content now = ⟨s, sess, .redirect "/login"⟩ := by
  constructor
  · unfold chat
    rw [hanon]
    rfl
  · unfold post
    rw [hanon]

/-- Store for the C9 witness: one chat message already present. -/
def c9Store : Store :=
  { users := [], posts := [], comments := [],
    messages := [{ id := 1, content := "yo", user := "alice", timestamp := 3 }] }

/-- Witness for C9: an anonymous chat POST against a one-message store
renders that message and leaves the store as it was. -/
theorem c9_anon_chat_post_renders_without_insert_witness :
    (({ userId := none, username := none } : Session).userId = none) ∧
    chat c9Store { userId := none, username := none } true "spam" 9 =
      ⟨c9Store, { userId := none, username := none }, .chatPage (listMessages c9Store)⟩ :=
  ⟨rfl,
    (c9_anon_chat_post_renders_without_insert c9Store
      { userId := none, username := none } "spam" "c" 9 rfl).1⟩

/-- C10: with no user id in the session at all, every ownership-gated route
on an existing resource — edit_post, delete_post, edit_comment,
delete_comment — answers the plain Unauthorized text and commits nothing,
because the resource's owner id, lifted to some, never equals none; no
redirect to /login happens on these routes. -/
theorem c10_anonymous_mutations_unauthorized (s : Store) (sess : Session)
    (p : Post) (c : Comment) (content : String)
    (hp : findPostById s p.id = some p)
    (hc : findCommentById s c.id = some c)
    (hanon : sess.userId = none) :
    edit_post s sess p.id content = ⟨s, sess, .unauthorizedText⟩ ∧
    delete_post s sess p.id = ⟨s, sess, .unauthorizedText⟩ ∧
    edit_comment s sess c.id content = ⟨s, sess, .unauthorizedText⟩ ∧
    delete_comment s sess c.id = ⟨s, sess, .unauthorizedText⟩ := by
  have hnp : some p.user_id ≠ sess.userId := by rw [hanon]; simp
  have hnc : some c.user_id ≠ sess.userId := by rw [hanon]; simp
  refine ⟨?_, ?_, ?_, ?_⟩
  · unfold edit_post
    rw [hp]
    simp [hnp]
  · unfold delete_post
    rw [hp]
    simp [hnp]
  · unfold edit_comment
    rw [hc]
    simp [hnc]
  · unfold delete_comment
    rw [hc]
    simp [hnc]

/-- Store for the C10 witness: alice owns post 1 and comment 1. -/
def c10Store : Store :=
  { users := [{ id := 1, username := "alice", password := generate_password_hash "pw1" }],
    posts := [{ id := 1, content := "hello", timestamp := 1, user_id := 1 }],
    comments := [{ id := 1, content := "hi", timestamp := 2, user_id := 1, post_id := 1 }],
    messages := [] }

/-- Witness for C10: a fully anonymous session deleting comment 1 gets the
Unauthorized text and changes nothing. -/
theorem c10_anonymous_mutations_unauthorized_witness :
    findPostById c10Store 1 = some { id := 1, content := "hello", timestamp := 1, user_id := 1 } ∧
    findCommentById c10Store 1 = some { id := 1, content := "hi", timestamp := 2, user_id := 1, post_id := 1 } ∧
    delete_comment c10Store { userId := none, username := none } 1 =
      ⟨c10Store, { userId := none, username := none }, .unauthorizedText⟩ :=
  ⟨rfl, rfl,
    (c10_anonymous_mutations_unauthorized c10Store { userId := none, username := none }
      { id := 1, content := "hello", timestamp := 1, user_id := 1 }
      { id := 1, content := "hi", timestamp := 2, user_id := 1, post_id := 1 }
      "x" rfl rfl rfl).2.2.2⟩

/-- C6: for a registered user, logging in with the stored password's
preimage establishes a session carrying exactly that user's id and username
and redirects home; a wrong password, or a username nobody registered,
flashes Invalid login and leaves the session as it was — unauthenticated
when it started unauthenticated. -/
theorem c6_login_success_and_failure (s : Store) (sess : Session) (user : User)
    (pw wrong absent : String)
    (hu : findUserByName s user.username = some user)
    (hpw : user.password = generate_password_hash pw)
    (hwrong : wrong ≠ pw)
    (hanon : sess.userId = none)
    (habsent : findUserByName s absent = none) :
    login s sess user.username pw =
      ⟨s, { userId := some user.id, username := some user.username }, .redirect "/"⟩ ∧
    login s sess user.username wrong = ⟨s, sess, .loginPageFlash "Invalid login."⟩ ∧
    (login s sess user.username wrong).session.userId = none ∧
    login s sess absent pw = ⟨s, sess, .loginPageFlash "Invalid login."⟩ ∧
    (login s sess absent pw).session.userId = none := by
  have hok : check_password_hash user.password pw = true := by
    rw [check_password_hash, hpw]
    simp
  have hbad : check_password_hash user.password wrong = false := by
    rw [check_password_hash, hpw]
    rw [beq_eq_false_iff_ne]
    intro heq
    exact hwrong (generate_password_hash_injective heq).symm
  have h1 : login s sess user.username pw =
      ⟨s, { userId := some user.id, username := some user.username }, .redirect "/"⟩ := by
    unfold login
    rw [hu]
    simp [hok]
  have h2 : login s sess user.username wrong = ⟨s, sess, .loginPageFlash "Invalid login."⟩ := by
    unfold login
    rw [hu]
    simp [hbad]
  have h3 : login s sess absent pw = ⟨s, sess, .loginPageFlash "Invalid login."⟩ := by
    unfold login
    rw [habsent]
  exact ⟨h1, h2, by rw [h2]; exact hanon, h3, by rw [h3]; exact hanon⟩

/-- Store for the C6 witness: alice registered with password pw1. -/
def c6Store : Store :=
  { users := [{ id := 1, username := "alice", password := generate_password_hash "pw1" }],
    posts := [], comments := [], messages := [] }

/-- Witness for C6: alice's correct login from a fresh session yields a
session with her id and username. -/
theorem c6_login_success_and_failure_witness :
    findUserByName c6Store "alice" =
      some { id := 1, username := "alice", password := generate_password_hash "pw1" } ∧
    ("bad" : String) ≠ "pw1" ∧
    findUserByName c6Store "nobody" = none ∧
    login c6Store { userId := none, username := none } "alice" "pw1" =
      ⟨c6Store, { userId := some 1, username := some "alice" }, .redirect "/"⟩ :=
  ⟨rfl, by decide, rfl,
    (c6_login_success_and_failure c6Store { userId := none, username := none }
      { id := 1, username := "alice", password := generate_password_hash "pw1" }
      "pw1" "bad" "nobody" rfl rfl (by decide) rfl rfl).1⟩

/-- C8: the home view is the posts in descending-timestamp order (a
permutation of the post table, pairwise newest-first), each annotated as
owned exactly when the session's user id equals the post's author, carrying
exactly the post's comments in table (insertion) order — each likewise
ownership-annotated — so that when insertion order is chronological the
comments run oldest-first. -/
theorem c8_index_order_and_ownership (s : Store) (sess : Session)
    (hc : List.Pairwise (fun a b : Comment => a.timestamp ≤ b.timestamp) s.comments) :
    ((index s sess).map PostView.post).Perm s.posts ∧
    List.Pairwise (fun a b : Post => b.timestamp ≤ a.timestamp)
      ((index s sess).map PostView.post) ∧
    ∀ v ∈ index s sess,
      v.owned = (sess.userId == some v.post.user_id) ∧
      v.comments = (s.comments.filter (fun c => c.post_id == v.post.id)).map
        (fun c => (c, sess.userId == some c.user_id)) ∧
      List.Pairwise (fun a b : Comment => a.timestamp ≤ b.timestamp)
        (v.comments.map Prod.fst) := by
  have hmap : (index s sess).map PostView.post =
      s.posts.mergeSort (fun a b => decide (b.timestamp ≤ a.timestamp)) := by
    unfold index
    rw [List.map_map]
    have hid : (PostView.post ∘ postView s sess) = id := rfl
    rw [hid, List.map_id]
  have htrans : ∀ a b c : Post,
      decide (b.timestamp ≤ a.timestamp) = true →
      decide (c.timestamp ≤ b.timestamp) = true →
      decide (c.timestamp ≤ a.timestamp) = true := by
    intro a b c hab hbc
    simp only [decide_eq_true_eq] at hab hbc ⊢
    exact le_trans hbc hab
  have htotal : ∀ a b : Post,
      (decide (b.timestamp ≤ a.timestamp) || decide (a.timestamp ≤ b.timestamp)) = true := by
    intro a b
    simp only [Bool.or_eq_true, decide_eq_true_eq]
    exact Nat.le_total b.timestamp a.timestamp
  have hsorted := @List.sorted_mergeSort Post
    (fun a b => decide (b.timestamp ≤ a.timestamp)) htrans htotal s.posts
  refine ⟨?_, ?_, ?_⟩
  · rw [hmap]
    exact List.mergeSort_perm s.posts _
  · rw [hmap]
    exact hsorted.imp (fun h => by simpa using h)
  · intro v hv
    unfold index at hv
    rw [List.mem_map] at hv
    obtain ⟨p, hp, rfl⟩ := hv
    refine ⟨rfl, rfl, ?_⟩
    have hfst : ((s.comments.filter (fun c => c.post_id == p.id)).map
        (fun c => (c, sess.userId == some c.user_id))).map Prod.fst =
        s.comments.filter (fun c => c.post_id == p.id) := by
      rw [List.map_map]
      have hid : (Prod.fst ∘ fun c =>
          ((c, sess.userId == some c.user_id) : Comment × Bool)) = id := rfl
      rw [hid, List.map_id]
    show List.Pairwise _ (((s.comments.filter (fun c => c.post_id == p.id)).map
        (fun c => (c, sess.userId == some c.user_id))).map Prod.fst)
    rw [hfst]
    exact List.Pairwise.filter _ hc

/-- Store for the C8 witness: two posts by alice with distinct timestamps,
the older post carrying two comments in chronological insertion order. -/
def c8Store : Store :=
  { users := [{ id := 1, username := "alice", password := generate_password_hash "pw1" }],
    posts := [{ id := 1, content := "a", timestamp := 5, user_id := 1 },
              { id := 2, content := "b", timestamp := 9, user_id := 1 }],
    comments := [{ id := 1, content := "c1", timestamp := 6, user_id := 1, post_id := 1 },
                 { id := 2, content := "c2", timestamp := 7, user_id := 1, post_id := 1 }],
    messages := [] }

/-- Witness for C8: with chronologically inserted comments, the rendered
feed of the concrete store is a permutation of its post table. -/
theorem c8_index_order_and_ownership_witness :
    List.Pairwise (fun a b : Comment => a.timestamp ≤ b.timestamp) c8Store.comments ∧
    ((index c8Store { userId := some 1, username := some "alice" }).map PostView.post).Perm
      c8Store.posts :=
  ⟨by decide,
    (c8_index_order_and_ownership c8Store { userId := some 1, username := some "alice" }
      (by decide)).1⟩
